import Mathlib

/-!
Verification of the `wyron_client` client library
(`python-client/wyron_client/client.py`).

The development shallowly embeds the data model (WireGuardInterface, Server,
PeerState, the error classes), the config renderer `PeerState.generate_config`,
the retry dispatchers `WyronClient._request` and `WyronGrpcClient._call`, the
two `login` methods, the two `_parse_server` helpers and the `list_users`
request builders, and proves the documented properties about them.

Python conventions embedded explicitly:
- an `Optional[str]` field is `Option String`; Python truthiness `not x` on it
  holds when the value is `None` or the empty string (`pyFalsyOptStr`);
- f-string interpolation of an optional value prints `None` when absent
  (`pyStrOfOptStr`, `pyStrOfOptInt`);
- a raised exception is the `.error` branch of `Except`.
-/

/-- Python truthiness test `not x` for `x : Optional[str]`: true exactly when
the value is `None` or the empty string. -/
def pyFalsyOptStr : Option String → Bool
  | none => true
  | some s => s.isEmpty

/-- Python f-string rendering of an `Optional[str]` value: `None` prints as
the four letters `None`. -/
def pyStrOfOptStr : Option String → String
  | none => "None"
  | some s => s

/-- Python f-string rendering of an `Optional[int]` value. -/
def pyStrOfOptInt : Option Int → String
  | none => "None"
  | some n => toString n

/-- Embedding of the dataclass `WireGuardInterface` (client.py lines 31-40). -/
structure WireGuardInterface where
  name : String
  display_name : Option String := none
  subnet : Option String := none
  endpoint : Option String := none
  dns : Option String := none
  port : Option Int := none
  created_at : Option Int := none
  public_key : Option String := none
deriving DecidableEq, Repr

/-- Embedding of the dataclass `Server` (client.py lines 43-50). -/
structure Server where
  name : String
  address : String
  username : String
  display_name : Option String := none
  created_at : Option Int := none
  interfaces : List WireGuardInterface := []
deriving DecidableEq, Repr

/-- Embedding of the `ServerResolver` protocol (client.py lines 52-53): a
capability mapping a server id to a `Server`. -/
abbrev ServerResolver := String → Server

/-- Embedding of the dataclass `PeerState` (client.py lines 55-62); `_client`
is the weak back-reference to the bound resolver, `none` when unbound. -/
structure PeerState where
  server_id : String
  interface : String
  allowed_address : String
  private_key : Option String := none
  _client : Option ServerResolver := none

/-- The two exception classes raised by config rendering
(client.py lines 19-24), each carrying its message. -/
inductive PyError where
  | interfaceNotFound (msg : String)
  | interfaceMissingKey (msg : String)
deriving DecidableEq, Repr

/-- The exception class (kind) of a raised error, forgetting the message:
what an `except InterfaceNotFound` / `except InterfaceMissingKey` handler
can branch on. -/
inductive ErrKind where
  | interfaceNotFoundKind
  | interfaceMissingKeyKind
deriving DecidableEq, Repr

/-- Kind (exception class) of a raised `PyError`. -/
def PyError.kind : PyError → ErrKind
  | .interfaceNotFound _ => .interfaceNotFoundKind
  | .interfaceMissingKey _ => .interfaceMissingKeyKind

/-- Embedding of `next((i for i in server.interfaces if i.name == self.interface), None)`
(client.py lines 78-81): first interface with the given name. -/
def findIface (server : Server) (ifname : String) : Option WireGuardInterface :=
  server.interfaces.find? (fun i => i.name == ifname)

/-- Embedding of `PeerState._resolve_server` (client.py lines 67-72). -/
def PeerState._resolve_server (p : PeerState) : Except PyError Server :=
  match p._client with
  | none => .error (.interfaceNotFound "Peer has no client bound")
  | some c => .ok (c p.server_id)

/-- Message of the interface-not-found error (client.py lines 84-86). -/
def ifaceNotFoundMsg (ifname server_id : String) : String :=
  "Interface \x27" ++ ifname ++ "\x27 not found on server \x27" ++ server_id ++ "\x27"

/-- Embedding of `PeerState._resolve_iface` (client.py lines 75-88). -/
def PeerState._resolve_iface (p : PeerState) : Except PyError WireGuardInterface :=
  match p._resolve_server with
  | .error e => .error e
  | .ok server =>
    match findIface server p.interface with
    | none => .error (.interfaceNotFound (ifaceNotFoundMsg p.interface p.server_id))
    | some iface => .ok iface

/-- The f-string template of `generate_config` (client.py lines 102-111),
with the interpolated values as parameters. -/
def renderConfig (address dns priv endpoint port pub : String) : String :=
  "[Interface]\n    Address = " ++ address ++
  "\n    DNS = " ++ dns ++
  "\n    PrivateKey = " ++ priv ++
  "\n\n[Peer]\n    AllowedIPs = 0.0.0.0/0\n    Endpoint = " ++ endpoint ++ ":" ++ port ++
  "\n    PublicKey = " ++ pub ++ "\n    "

/-- Embedding of `PeerState.generate_config` (client.py lines 90-111). -/
def PeerState.generate_config (p : PeerState) : Except PyError String :=
  if pyFalsyOptStr p.private_key then
    .error (.interfaceMissingKey "Peer private_key missing")
  else
    match p._resolve_iface with
    | .error e => .error e
    | .ok iface =>
      if pyFalsyOptStr iface.endpoint then
        .error (.interfaceMissingKey "Interface endpoint missing")
      else if pyFalsyOptStr iface.public_key then
        .error (.interfaceMissingKey "Interface public_key missing")
      else
        .ok (renderConfig p.allowed_address (pyStrOfOptStr iface.dns)
              (pyStrOfOptStr p.private_key) (pyStrOfOptStr iface.endpoint)
              (pyStrOfOptInt iface.port) (pyStrOfOptStr iface.public_key))

/-- The five precondition checks of config rendering, named. -/
inductive Precondition where
  | missingPrivateKey
  | notBound
  | ifaceNotFound
  | missingEndpoint
  | missingPublicKey
deriving DecidableEq, Repr

/-- Which precondition check of `generate_config` is the first to fail on a
given peer, `none` when all pass (derived classification used to state the
error-kind theorems). -/
def PeerState.firstFailedCheck (p : PeerState) : Option Precondition :=
  if pyFalsyOptStr p.private_key then some .missingPrivateKey
  else
    match p._client with
    | none => some .notBound
    | some c =>
      match findIface (c p.server_id) p.interface with
      | none => some .ifaceNotFound
      | some iface =>
        if pyFalsyOptStr iface.endpoint then some .missingEndpoint
        else if pyFalsyOptStr iface.public_key then some .missingPublicKey
        else none

/-!
HTTP transport model for `WyronClient._request` (client.py lines 166-190).
An attempt of the underlying `httpx` session either yields a response (a
status code and a body) or raises a transport exception (timeout, connection
error). The dispatcher is a function of the attempt outcomes (indexed 0 for
the first send, 1 for the retried send) and of the outcome of `self.login()`;
it returns the result together with the number of `login()` invocations.
-/

/-- The part of an `httpx` response that `_request` inspects. -/
structure HttpResponse where
  status_code : Nat
  body : String
deriving DecidableEq, Repr

/-- Failures that `_request` and `login` can propagate. -/
inductive HttpFailure where
  | statusError (code : Nat)
  | transportError (msg : String)
  | loginError (msg : String)
deriving DecidableEq, Repr

/-- Outcome of one `self.session.request(...)` attempt. -/
inductive HttpAttempt where
  | response (r : HttpResponse)
  | raised (e : HttpFailure)
deriving DecidableEq, Repr

/-- Embedding of `httpx.Response.raise_for_status`: raises for status
codes 400 and above, otherwise passes the response through. -/
def raise_for_status (r : HttpResponse) : Except HttpFailure HttpResponse :=
  if 400 ≤ r.status_code then .error (.statusError r.status_code) else .ok r

/-- Embedding of `WyronClient._request` (client.py lines 166-190):
`send n` is the outcome of attempt `n` of the underlying session request,
`login` the outcome of `self.login()`. Returns the call result and the
number of times `login()` ran. -/
def WyronClient_request (send : Nat → HttpAttempt)
    (login : Except HttpFailure Unit) : Except HttpFailure String × Nat :=
  match send 0 with
  | .raised e => (.error e, 0)
  | .response r =>
    if r.status_code == 401 then
      match login with
      | .error e => (.error e, 1)
      | .ok _ =>
        match send 1 with
        | .raised e => (.error e, 1)
        | .response r2 =>
          match raise_for_status r2 with
          | .error e => (.error e, 1)
          | .ok r2 => (.ok r2.body, 1)
    else
      match raise_for_status r with
      | .error e => (.error e, 0)
      | .ok r => (.ok r.body, 0)

/-- Embedding of `WyronClient.login` (client.py lines 196-208): given the
status code of the login response and the value at key `token` of its JSON
body (`none` when the key is absent), returns the token that is stored in
`self.token`, or the raised error. -/
def WyronClient_login (status : Nat) (token : Option String) :
    Except HttpFailure String :=
  if 400 ≤ status then .error (.statusError status)
  else
    match token with
    | none => .error (.loginError "Login failed: token missing in response")
    | some t =>
      if t.isEmpty then .error (.loginError "Login failed: token missing in response")
      else .ok t

/-!
gRPC transport model for `WyronGrpcClient._call` (client.py lines 380-395).
An attempt of the stub call either returns a message body, raises a
`grpc.RpcError` carrying a status code, or raises some other exception.
`grpc.StatusCode.UNAUTHENTICATED` is status code 16.
-/

/-- Outcome of one `func(request, ...)` stub invocation. -/
inductive GrpcAttempt where
  | ok (body : String)
  | rpcError (code : Nat)
  | raised (msg : String)
deriving DecidableEq, Repr

/-- Failures that `_call` and the gRPC `login` can propagate. -/
inductive GrpcFailure where
  | rpc (code : Nat)
  | raised (msg : String)
  | loginError (msg : String)
deriving DecidableEq, Repr

/-- Numeric value of `grpc.StatusCode.UNAUTHENTICATED`. -/
def UNAUTHENTICATED : Nat := 16

/-- Embedding of `WyronGrpcClient._call` (client.py lines 380-395):
`send n` is the outcome of stub attempt `n`, `login` the outcome of
`self.login()`. Returns the call result and the number of times
`login()` ran. -/
def WyronGrpcClient_call (send : Nat → GrpcAttempt)
    (login : Except GrpcFailure Unit) : Except GrpcFailure String × Nat :=
  match send 0 with
  | .ok b => (.ok b, 0)
  | .raised m => (.error (.raised m), 0)
  | .rpcError c =>
    if c == UNAUTHENTICATED then
      match login with
      | .error e => (.error e, 1)
      | .ok _ =>
        match send 1 with
        | .ok b => (.ok b, 1)
        | .raised m => (.error (.raised m), 1)
        | .rpcError c2 => (.error (.rpc c2), 1)
    else (.error (.rpc c), 0)

/-- Embedding of `WyronGrpcClient.login` (client.py lines 401-409): the
`token` field of the successful `Login` response (a proto3 string, the empty
string when the server returns no token) is stored in `self.token`
unconditionally; no check is performed. -/
def WyronGrpcClient_login (token : String) : Except GrpcFailure String :=
  .ok token

/-!
Parsing model. The REST `_parse_server` receives a JSON object; a
well-formed one is a record whose optional keys may be absent (`none`), and
whose `interfaces` key, when absent, defaults to the empty list via
`s.get("interfaces", [])`. The gRPC `_parse_server` receives a proto3
message, in which every scalar field is present, absent values being the
proto3 defaults (empty string, 0).
-/

/-- A well-formed JSON object for one interface, as consumed by
`WireGuardInterface(**iface)`: absent optional keys are `none`. -/
structure IfaceJson where
  name : String
  display_name : Option String := none
  subnet : Option String := none
  endpoint : Option String := none
  dns : Option String := none
  port : Option Int := none
  created_at : Option Int := none
  public_key : Option String := none
deriving DecidableEq, Repr

/-- A well-formed JSON object for one server, as consumed by
`Server(**s2)`: absent optional keys are `none`; an absent `interfaces`
key is `none`. -/
structure ServerJson where
  name : String
  address : String
  username : String
  display_name : Option String := none
  created_at : Option Int := none
  interfaces : Option (List IfaceJson) := none
deriving DecidableEq, Repr

/-- Embedding of `WireGuardInterface(**iface)` on a well-formed JSON
object: each present key fills the field, each absent key leaves the
dataclass default `None`. -/
def parseIfaceJson (j : IfaceJson) : WireGuardInterface :=
  { name := j.name, display_name := j.display_name, subnet := j.subnet,
    endpoint := j.endpoint, dns := j.dns, port := j.port,
    created_at := j.created_at, public_key := j.public_key }

/-- Embedding of `WyronClient._parse_server` (client.py lines 214-219). -/
def WyronClient_parse_server (s : ServerJson) : Server :=
  { name := s.name, address := s.address, username := s.username,
    display_name := s.display_name, created_at := s.created_at,
    interfaces := (s.interfaces.getD []).map parseIfaceJson }

/-- A proto3 interface message: every field present, defaults for absent
wire values. -/
structure GrpcInterfaceMsg where
  name : String := ""
  display_name : String := ""
  subnet : String := ""
  endpoint : String := ""
  dns : String := ""
  port : Int := 0
  created_at : Int := 0
  public_key : String := ""
deriving DecidableEq, Repr

/-- A proto3 server message: every field present, defaults for absent wire
values. The identity field is called `id`. -/
structure GrpcServerMsg where
  id : String := ""
  address : String := ""
  username : String := ""
  display_name : String := ""
  created_at : Int := 0
  interfaces : List GrpcInterfaceMsg := []
deriving DecidableEq, Repr

/-- Embedding of the interface copy inside `WyronGrpcClient._parse_server`
(client.py lines 584-596): plain field copies, so every optional field of
the record receives `some` of the proto3 value. -/
def parseGrpcIface (i : GrpcInterfaceMsg) : WireGuardInterface :=
  { name := i.name, display_name := some i.display_name,
    subnet := some i.subnet, endpoint := some i.endpoint,
    dns := some i.dns, port := some i.port,
    created_at := some i.created_at, public_key := some i.public_key }

/-- Embedding of `WyronGrpcClient._parse_server` (client.py lines 582-605):
`name` is copied from the message field `id`. -/
def WyronGrpcClient_parse_server (s : GrpcServerMsg) : Server :=
  { name := s.id, address := s.address, username := s.username,
    display_name := some s.display_name, created_at := some s.created_at,
    interfaces := s.interfaces.map parseGrpcIface }

/-- Modelled from the spec: the REST JSON representation of one interface
state; absent optional fields are absent keys. -/
def restIfaceRepOf (i : WireGuardInterface) : IfaceJson :=
  { name := i.name, display_name := i.display_name, subnet := i.subnet,
    endpoint := i.endpoint, dns := i.dns, port := i.port,
    created_at := i.created_at, public_key := i.public_key }

/-- Modelled from the spec: the REST JSON representation the remote service
sends for a given server state (the service itself is not part of this
repository). Optional fields that are absent in the state are absent keys
in the JSON object; the interface list is always present. -/
def restRepOf (st : Server) : ServerJson :=
  { name := st.name, address := st.address, username := st.username,
    display_name := st.display_name, created_at := st.created_at,
    interfaces := some (st.interfaces.map restIfaceRepOf) }

/-- Modelled from the spec: the gRPC message for one interface state; proto3
scalar fields carry the defaults, the empty string and 0, when the optional
field of the state is absent. -/
def grpcIfaceRepOf (i : WireGuardInterface) : GrpcInterfaceMsg :=
  { name := i.name, display_name := i.display_name.getD "",
    subnet := i.subnet.getD "", endpoint := i.endpoint.getD "",
    dns := i.dns.getD "", port := i.port.getD 0,
    created_at := i.created_at.getD 0, public_key := i.public_key.getD "" }

/-- Modelled from the spec: the gRPC message the remote service sends for
the same server state (the service and the proto definitions are not part
of this repository). proto3 scalar fields carry the defaults, the empty
string and 0, when the optional field of the state is absent. -/
def grpcRepOf (st : Server) : GrpcServerMsg :=
  { id := st.name, address := st.address, username := st.username,
    display_name := st.display_name.getD "", created_at := st.created_at.getD 0,
    interfaces := st.interfaces.map grpcIfaceRepOf }

/-- All optional fields of an interface record are present. -/
def fullIface (i : WireGuardInterface) : Bool :=
  i.display_name.isSome && i.subnet.isSome && i.endpoint.isSome &&
  i.dns.isSome && i.port.isSome && i.created_at.isSome && i.public_key.isSome

/-- All optional fields of a server record and of its interfaces are
present. -/
def fullServer (st : Server) : Bool :=
  st.display_name.isSome && st.created_at.isSome &&
  st.interfaces.all fullIface

/-!
`list_users` request building. Both `WyronClient.list_users`
(client.py lines 263-294) and `WyronGrpcClient.list_users`
(client.py lines 475-510) first put the four mandatory parameters in the
outgoing request, then add `social_id` when it `is not None`, and `status`
and `search` when they are truthy. The outgoing request is modelled as a
record whose optional fields are `none` exactly when the code does not set
them.
-/

/-- The outgoing `list_users` request: which parameters are set and to
what. -/
structure ListUsersQuery where
  limit : Int
  skip : Int
  sort : String
  order : String
  social_id : Option Int := none
  status : Option String := none
  search : Option String := none
deriving DecidableEq, Repr

/-- Embedding of the `params` dict built by `WyronClient.list_users`
(client.py lines 273-284): `social_id` is added when it `is not None`,
`status` and `search` when truthy (present and non-empty). -/
def WyronClient_list_users_params (social_id : Option Int)
    (status search : Option String) (limit skip : Int)
    (sort ord : String) : ListUsersQuery :=
  { limit := limit, skip := skip, sort := sort, order := ord,
    social_id := social_id,
    status := if pyFalsyOptStr status then none else status,
    search := if pyFalsyOptStr search then none else search }

/-- Embedding of the `ListUsersRequest` built by
`WyronGrpcClient.list_users` (client.py lines 486-498): the same
conditional field assignment as the REST variant. -/
def WyronGrpcClient_list_users_request (social_id : Option Int)
    (status search : Option String) (limit skip : Int)
    (sort ord : String) : ListUsersQuery :=
  { limit := limit, skip := skip, sort := sort, order := ord,
    social_id := social_id,
    status := if pyFalsyOptStr status then none else status,
    search := if pyFalsyOptStr search then none else search }

/-!
Shared helper lemmas.
-/

/-- An optional value that is present is recovered by `getD`. -/
theorem some_getD_of_isSome {α : Type} (o : Option α) (d : α)
    (h : o.isSome = true) : some (o.getD d) = o := by
  cases o <;> simp_all

/-- A map whose function fixes every element of the list is the identity. -/
theorem map_eq_self_of_fixes {α : Type} (f : α → α) (l : List α)
    (h : ∀ x ∈ l, f x = x) : l.map f = l := by
  induction l with
  | nil => rfl
  | cons a t ih =>
    simp only [List.map_cons, h a (by simp)]
    rw [ih (fun x hx => h x (by simp [hx]))]

/-- Claim C1: `generate_config` performs its precondition checks in the
documented order and raises the documented error at the first failing check:
a falsy `private_key` raises `InterfaceMissingKey` regardless of all other
fields and of whether a resolver is bound; otherwise an unbound peer raises
the not-bound error; otherwise, a server with no interface of the peer
interface name raises the interface-not-found error; otherwise a falsy
`endpoint`, then a falsy `public_key`, raise `InterfaceMissingKey` naming
the absent field; only when all checks pass is the profile rendered. -/
theorem PeerState.generate_config_check_order (p : PeerState) :
    (pyFalsyOptStr p.private_key = true →
      p.generate_config = .error (.interfaceMissingKey "Peer private_key missing")) ∧
    (pyFalsyOptStr p.private_key = false → p._client = none →
      p.generate_config = .error (.interfaceNotFound "Peer has no client bound")) ∧
    (∀ c : ServerResolver, pyFalsyOptStr p.private_key = false → p._client = some c →
      (∀ i ∈ (c p.server_id).interfaces, (i.name == p.interface) = false) →
      p.generate_config =
        .error (.interfaceNotFound (ifaceNotFoundMsg p.interface p.server_id))) ∧
    (∀ (c : ServerResolver) (i : WireGuardInterface),
      pyFalsyOptStr p.private_key = false → p._client = some c →
      findIface (c p.server_id) p.interface = some i →
      pyFalsyOptStr i.endpoint = true →
      p.generate_config = .error (.interfaceMissingKey "Interface endpoint missing")) ∧
    (∀ (c : ServerResolver) (i : WireGuardInterface),
      pyFalsyOptStr p.private_key = false → p._client = some c →
      findIface (c p.server_id) p.interface = some i →
      pyFalsyOptStr i.endpoint = false → pyFalsyOptStr i.public_key = true →
      p.generate_config = .error (.interfaceMissingKey "Interface public_key missing")) ∧
    (∀ (c : ServerResolver) (i : WireGuardInterface),
      pyFalsyOptStr p.private_key = false → p._client = some c →
      findIface (c p.server_id) p.interface = some i →
      pyFalsyOptStr i.endpoint = false → pyFalsyOptStr i.public_key = false →
      p.generate_config =
        .ok (renderConfig p.allowed_address (pyStrOfOptStr i.dns)
          (pyStrOfOptStr p.private_key) (pyStrOfOptStr i.endpoint)
          (pyStrOfOptInt i.port) (pyStrOfOptStr i.public_key))) := by
  refine ⟨?_, ?_, ?_, ?_, ?_, ?_⟩
  · intro h
    simp [PeerState.generate_config, h]
  · intro h1 h2
    simp [PeerState.generate_config, PeerState._resolve_iface,
      PeerState._resolve_server, h1, h2]
  · intro c h1 h2 h3
    have hf : findIface (c p.server_id) p.interface = none := by
      simp only [findIface, List.find?_eq_none]
      intro i hi
      simp [h3 i hi]
    simp [PeerState.generate_config, PeerState._resolve_iface,
      PeerState._resolve_server, h1, h2, hf]
  · intro c i h1 h2 h3 h4
    simp [PeerState.generate_config, PeerState._resolve_iface,
      PeerState._resolve_server, h1, h2, h3, h4]
  · intro c i h1 h2 h3 h4 h5
    simp [PeerState.generate_config, PeerState._resolve_iface,
      PeerState._resolve_server, h1, h2, h3, h4, h5]
  · intro c i h1 h2 h3 h4 h5
    simp [PeerState.generate_config, PeerState._resolve_iface,
      PeerState._resolve_server, h1, h2, h3, h4, h5]

/-- The interface of the worked example of the spec (section 8). -/
def exampleIface : WireGuardInterface :=
  { name := "wg0", endpoint := some "vpn.example.com", dns := some "1.1.1.1",
    port := some 51820, public_key := some "PUB" }

/-- The server of the worked example of the spec (section 8). -/
def exampleServer : Server :=
  { name := "srv1", address := "1.2.3.4", username := "root",
    interfaces := [exampleIface] }

/-- A resolver returning the example server for every id. -/
def exampleResolver : ServerResolver := fun _ => exampleServer

/-- The peer of the worked example of the spec (section 8), bound to the
example resolver. -/
def examplePeer : PeerState :=
  { server_id := "srv1", interface := "wg0", allowed_address := "10.0.0.2/32",
    private_key := some "PK", _client := some exampleResolver }

/-- Witness for C1: the success clause at a concrete bound peer whose server
carries the matching interface. -/
theorem generate_config_check_order_witness :
    PeerState.generate_config examplePeer =
      Except.ok (renderConfig "10.0.0.2/32" (pyStrOfOptStr (some "1.1.1.1"))
        (pyStrOfOptStr (some "PK")) (pyStrOfOptStr (some "vpn.example.com"))
        (pyStrOfOptInt (some 51820)) (pyStrOfOptStr (some "PUB"))) := by
  have h := (PeerState.generate_config_check_order examplePeer).2.2.2.2.2
    exampleResolver exampleIface rfl rfl (by decide) rfl rfl
  exact h

/-- Counterexample for C2: the unbound-peer violation and the
interface-not-found violation are raised with the same exception class
`InterfaceNotFound`, so the kind of the raised error alone does not tell a
caller which of the two preconditions failed. The first peer is unbound, the
second is bound to a resolver whose server has no matching interface; both
raised errors have the same kind. -/
theorem generate_config_kinds_not_distinct :
    PeerState.generate_config
      { server_id := "srv1", interface := "wg0",
        allowed_address := "10.0.0.2/32", private_key := some "PK" } =
      Except.error (PyError.interfaceNotFound "Peer has no client bound") ∧
    PeerState.generate_config
      { server_id := "srv1", interface := "wg0",
        allowed_address := "10.0.0.2/32", private_key := some "PK",
        _client := some (fun _ =>
          { name := "srv1", address := "1.2.3.4", username := "root" }) } =
      Except.error (PyError.interfaceNotFound (ifaceNotFoundMsg "wg0" "srv1")) ∧
    PyError.kind (PyError.interfaceNotFound "Peer has no client bound") =
      PyError.kind (PyError.interfaceNotFound (ifaceNotFoundMsg "wg0" "srv1")) :=
  ⟨rfl, rfl, rfl⟩

/-- Claim C2 (amended): of the three local precondition violations, the
missing-key violations are a distinct error kind (`InterfaceMissingKey`)
from the other two, so a caller can branch on missing-key by kind alone;
the unbound-peer and interface-not-found violations both carry kind
`InterfaceNotFound` and are distinguishable only by message. For every
error raised by `generate_config`, its kind is `InterfaceMissingKey`
exactly when the first failing check was one of the missing-key checks, and
`InterfaceNotFound` exactly when it was the not-bound or the
interface-not-found check. -/
theorem generate_config_kind_partition (p : PeerState) (e : PyError)
    (h : p.generate_config = .error e) :
    (e.kind = ErrKind.interfaceMissingKeyKind ↔
      (p.firstFailedCheck = some .missingPrivateKey ∨
       p.firstFailedCheck = some .missingEndpoint ∨
       p.firstFailedCheck = some .missingPublicKey)) ∧
    (e.kind = ErrKind.interfaceNotFoundKind ↔
      (p.firstFailedCheck = some .notBound ∨
       p.firstFailedCheck = some .ifaceNotFound)) := by
  by_cases hpk : pyFalsyOptStr p.private_key
  · simp [PeerState.generate_config, hpk] at h
    simp [PeerState.firstFailedCheck, hpk, ← h, PyError.kind]
  · cases hc : p._client with
    | none =>
      simp [PeerState.generate_config, PeerState._resolve_iface,
        PeerState._resolve_server, hpk, hc] at h
      simp [PeerState.firstFailedCheck, hpk, hc, ← h, PyError.kind]
    | some c =>
      cases hf : findIface (c p.server_id) p.interface with
      | none =>
        simp [PeerState.generate_config, PeerState._resolve_iface,
          PeerState._resolve_server, hpk, hc, hf] at h
        simp [PeerState.firstFailedCheck, hpk, hc, hf, ← h, PyError.kind]
      | some iface =>
        by_cases hep : pyFalsyOptStr iface.endpoint
        · simp [PeerState.generate_config, PeerState._resolve_iface,
            PeerState._resolve_server, hpk, hc, hf, hep] at h
          simp [PeerState.firstFailedCheck, hpk, hc, hf, hep, ← h, PyError.kind]
        · by_cases hpub : pyFalsyOptStr iface.public_key
          · simp [PeerState.generate_config, PeerState._resolve_iface,
              PeerState._resolve_server, hpk, hc, hf, hep, hpub] at h
            simp [PeerState.firstFailedCheck, hpk, hc, hf, hep, hpub, ← h,
              PyError.kind]
          · simp [PeerState.generate_config, PeerState._resolve_iface,
              PeerState._resolve_server, hpk, hc, hf, hep, hpub] at h

/-- Witness for the amended C2: at an unbound peer with a private key, the
raised error has kind `InterfaceNotFound` and the first failed check is the
not-bound check. -/
theorem generate_config_kind_partition_witness :
    PyError.kind (PyError.interfaceNotFound "Peer has no client bound") =
        ErrKind.interfaceNotFoundKind ↔
      (PeerState.firstFailedCheck
          { server_id := "srv1", interface := "wg0",
            allowed_address := "10.0.0.2/32", private_key := some "PK" } =
          some .notBound ∨
       PeerState.firstFailedCheck
          { server_id := "srv1", interface := "wg0",
            allowed_address := "10.0.0.2/32", private_key := some "PK" } =
          some .ifaceNotFound) :=
  (generate_config_kind_partition
    { server_id := "srv1", interface := "wg0",
      allowed_address := "10.0.0.2/32", private_key := some "PK" }
    (PyError.interfaceNotFound "Peer has no client bound") rfl).2

/-- Claim C3: for every operation dispatched through `WyronClient._request`
or `WyronGrpcClient._call`, an authentication failure signal on the first
attempt (HTTP status 401 / gRPC UNAUTHENTICATED) triggers exactly one
re-login and exactly one retry, whose outcome is returned as is, so a second
authentication failure propagates to the caller; every other first-attempt
outcome (transport exception, other status codes, other RPC errors, success)
is returned without any retry or login. The second component of the result
counts the `login()` invocations. -/
theorem client_auth_retry_policy :
    (∀ (send : Nat → HttpAttempt) (lg : Except HttpFailure Unit)
        (e : HttpFailure), send 0 = .raised e →
      WyronClient_request send lg = (.error e, 0)) ∧
    (∀ (send : Nat → HttpAttempt) (lg : Except HttpFailure Unit)
        (c : Nat) (b : String), send 0 = .response ⟨c, b⟩ → c ≠ 401 → c < 400 →
      WyronClient_request send lg = (.ok b, 0)) ∧
    (∀ (send : Nat → HttpAttempt) (lg : Except HttpFailure Unit)
        (c : Nat) (b : String), send 0 = .response ⟨c, b⟩ → c ≠ 401 → 400 ≤ c →
      WyronClient_request send lg = (.error (.statusError c), 0)) ∧
    (∀ (send : Nat → HttpAttempt) (lg : Except HttpFailure Unit)
        (b : String) (e : HttpFailure),
      send 0 = .response ⟨401, b⟩ → lg = .ok () → send 1 = .raised e →
      WyronClient_request send lg = (.error e, 1)) ∧
    (∀ (send : Nat → HttpAttempt) (lg : Except HttpFailure Unit)
        (b : String) (c2 : Nat) (b2 : String),
      send 0 = .response ⟨401, b⟩ → lg = .ok () →
      send 1 = .response ⟨c2, b2⟩ → c2 < 400 →
      WyronClient_request send lg = (.ok b2, 1)) ∧
    (∀ (send : Nat → HttpAttempt) (lg : Except HttpFailure Unit)
        (b : String) (c2 : Nat) (b2 : String),
      send 0 = .response ⟨401, b⟩ → lg = .ok () →
      send 1 = .response ⟨c2, b2⟩ → 400 ≤ c2 →
      WyronClient_request send lg = (.error (.statusError c2), 1)) ∧
    (∀ (gsend : Nat → GrpcAttempt) (glg : Except GrpcFailure Unit)
        (b : String), gsend 0 = .ok b →
      WyronGrpcClient_call gsend glg = (.ok b, 0)) ∧
    (∀ (gsend : Nat → GrpcAttempt) (glg : Except GrpcFailure Unit)
        (m : String), gsend 0 = .raised m →
      WyronGrpcClient_call gsend glg = (.error (.raised m), 0)) ∧
    (∀ (gsend : Nat → GrpcAttempt) (glg : Except GrpcFailure Unit)
        (c : Nat), gsend 0 = .rpcError c → c ≠ UNAUTHENTICATED →
      WyronGrpcClient_call gsend glg = (.error (.rpc c), 0)) ∧
    (∀ (gsend : Nat → GrpcAttempt) (glg : Except GrpcFailure Unit)
        (b : String),
      gsend 0 = .rpcError UNAUTHENTICATED → glg = .ok () → gsend 1 = .ok b →
      WyronGrpcClient_call gsend glg = (.ok b, 1)) ∧
    (∀ (gsend : Nat → GrpcAttempt) (glg : Except GrpcFailure Unit)
        (c2 : Nat),
      gsend 0 = .rpcError UNAUTHENTICATED → glg = .ok () →
      gsend 1 = .rpcError c2 →
      WyronGrpcClient_call gsend glg = (.error (.rpc c2), 1)) ∧
    (∀ (gsend : Nat → GrpcAttempt) (glg : Except GrpcFailure Unit)
        (m : String),
      gsend 0 = .rpcError UNAUTHENTICATED → glg = .ok () → gsend 1 = .raised m →
      WyronGrpcClient_call gsend glg = (.error (.raised m), 1)) := by
  refine ⟨?_, ?_, ?_, ?_, ?_, ?_, ?_, ?_, ?_, ?_, ?_, ?_⟩
  · intro send lg e h0
    simp [WyronClient_request, h0]
  · intro send lg c b h0 hne hlt
    have h4 : ¬ 400 ≤ c := by omega
    simp [WyronClient_request, h0, hne, raise_for_status, h4]
  · intro send lg c b h0 hne hge
    simp [WyronClient_request, h0, hne, raise_for_status, hge]
  · intro send lg b e h0 hlg h1
    simp [WyronClient_request, h0, hlg, h1]
  · intro send lg b c2 b2 h0 hlg h1 hlt
    have h4 : ¬ 400 ≤ c2 := by omega
    simp [WyronClient_request, h0, hlg, h1, raise_for_status, h4]
  · intro send lg b c2 b2 h0 hlg h1 hge
    simp [WyronClient_request, h0, hlg, h1, raise_for_status, hge]
  · intro gsend glg b h0
    simp [WyronGrpcClient_call, h0]
  · intro gsend glg m h0
    simp [WyronGrpcClient_call, h0]
  · intro gsend glg c h0 hne
    simp [WyronGrpcClient_call, h0, hne]
  · intro gsend glg b h0 hlg h1
    simp [WyronGrpcClient_call, h0, hlg, h1]
  · intro gsend glg c2 h0 hlg h1
    simp [WyronGrpcClient_call, h0, hlg, h1]
  · intro gsend glg m h0 hlg h1
    simp [WyronGrpcClient_call, h0, hlg, h1]

/-- Witness for C3: a first 401 followed by a 200 yields the retried body
with exactly one login; a first UNAUTHENTICATED RPC error followed by a
successful retry yields the retried body with exactly one login. -/
theorem client_auth_retry_policy_witness :
    WyronClient_request
      (fun n => if n = 0 then .response ⟨401, "x"⟩ else .response ⟨200, "pong"⟩)
      (.ok ()) = (.ok "pong", 1) ∧
    WyronGrpcClient_call
      (fun n => if n = 0 then .rpcError 16 else .ok "pong2")
      (.ok ()) = (.ok "pong2", 1) :=
  ⟨client_auth_retry_policy.2.2.2.2.1
      (fun n => if n = 0 then .response ⟨401, "x"⟩ else .response ⟨200, "pong"⟩)
      (.ok ()) "x" 200 "pong" rfl rfl rfl (by omega),
    client_auth_retry_policy.2.2.2.2.2.2.2.2.2.1
      (fun n => if n = 0 then .rpcError 16 else .ok "pong2")
      (.ok ()) "pong2" rfl rfl rfl⟩

/-- Counterexample for C4: the gRPC variant does not raise when the login
response carries no token (proto3 represents an absent token as the empty
string): `WyronGrpcClient.login` stores `response.token` unconditionally,
so the empty value is stored as the session token instead of an error being
raised. -/
theorem grpc_login_accepts_missing_token :
    WyronGrpcClient_login "" = Except.ok "" ∧
    (WyronGrpcClient_login "").isOk = true :=
  ⟨rfl, rfl⟩

/-- Claim C4 (amended): the REST `login()` exchanges the credentials for a
bearer token, stores it in the session state, and raises whenever the
response contains no token (key absent or empty value); the gRPC `login()`
stores the `token` field of the response unconditionally, storing the empty
string rather than raising when the response carries no token. -/
theorem login_token_handling :
    (∀ st : Nat, st < 400 → WyronClient_login st none =
      .error (.loginError "Login failed: token missing in response")) ∧
    (∀ st : Nat, st < 400 → WyronClient_login st (some "") =
      .error (.loginError "Login failed: token missing in response")) ∧
    (∀ (st : Nat) (t : String), st < 400 → t.isEmpty = false →
      WyronClient_login st (some t) = .ok t) ∧
    (∀ t : String, WyronGrpcClient_login t = .ok t) := by
  refine ⟨?_, ?_, ?_, ?_⟩
  · intro st h
    have h4 : ¬ 400 ≤ st := by omega
    simp [WyronClient_login, h4]
  · intro st h
    have h4 : ¬ 400 ≤ st := by omega
    simp [WyronClient_login, h4]
    rfl
  · intro st t h he
    have h4 : ¬ 400 ≤ st := by omega
    simp [WyronClient_login, h4, he]
  · intro t
    rfl

/-- Witness for the amended C4: a successful REST login with status 200
stores the returned token, and a tokenless REST response raises. -/
theorem login_token_handling_witness :
    WyronClient_login 200 (some "tok") = Except.ok "tok" ∧
    WyronClient_login 200 none =
      Except.error (HttpFailure.loginError "Login failed: token missing in response") :=
  ⟨login_token_handling.2.2.1 200 "tok" (by omega) rfl,
    login_token_handling.1 200 (by omega)⟩

/-- The REST parse of the REST representation reproduces the server state
exactly, for every state. -/
theorem WyronClient_parse_server_restRepOf (st : Server) :
    WyronClient_parse_server (restRepOf st) = st := by
  cases st with
  | mk name address username display_name created_at interfaces =>
    simp only [WyronClient_parse_server, restRepOf, Option.getD_some,
      List.map_map]
    have hf : ∀ i ∈ interfaces, (parseIfaceJson ∘ restIfaceRepOf) i = i := by
      intro i _
      rfl
    simp [map_eq_self_of_fixes _ _ hf]

/-- The gRPC parse of the gRPC representation reproduces an interface state
whose optional fields are all present. -/
theorem parseGrpcIface_grpcIfaceRepOf (i : WireGuardInterface)
    (h : fullIface i = true) : parseGrpcIface (grpcIfaceRepOf i) = i := by
  cases i with
  | mk name display_name subnet endpoint dns port created_at public_key =>
    simp only [fullIface, Bool.and_eq_true] at h
    obtain ⟨⟨⟨⟨⟨⟨h1, h2⟩, h3⟩, h4⟩, h5⟩, h6⟩, h7⟩ := h
    simp [parseGrpcIface, grpcIfaceRepOf, some_getD_of_isSome _ _ h1,
      some_getD_of_isSome _ _ h2, some_getD_of_isSome _ _ h3,
      some_getD_of_isSome _ _ h4, some_getD_of_isSome _ _ h5,
      some_getD_of_isSome _ _ h6, some_getD_of_isSome _ _ h7]

/-- Counterexample for C5: for a server state whose optional fields are
absent, the REST parse and the gRPC parse do not yield identical records:
the REST parse leaves `display_name` and `created_at` absent, while the
gRPC parse stores the proto3 defaults (the empty string and 0) as present
values. -/
theorem parse_server_transport_mismatch :
    WyronClient_parse_server
        (restRepOf { name := "s", address := "a", username := "u" }) ≠
      WyronGrpcClient_parse_server
        (grpcRepOf { name := "s", address := "a", username := "u" }) := by
  decide

/-- Claim C5 (amended): for every server state in which all optional fields
(of the server and of each of its interfaces) are present, parsing the REST
JSON representation with `WyronClient._parse_server` and parsing the
equivalent gRPC message with `WyronGrpcClient._parse_server` yield identical
`Server` records, field by field and interface by interface; when an
optional field is absent the two parses differ (`None` versus a stored
proto3 default). -/
theorem parse_server_equiv_on_full_state (st : Server)
    (h : fullServer st = true) :
    WyronClient_parse_server (restRepOf st) =
      WyronGrpcClient_parse_server (grpcRepOf st) := by
  rw [WyronClient_parse_server_restRepOf]
  cases st with
  | mk name address username display_name created_at interfaces =>
    simp only [fullServer, Bool.and_eq_true, List.all_eq_true] at h
    obtain ⟨⟨h1, h2⟩, h3⟩ := h
    simp only [WyronGrpcClient_parse_server, grpcRepOf, List.map_map]
    have hf : ∀ i ∈ interfaces, (parseGrpcIface ∘ grpcIfaceRepOf) i = i := by
      intro i hi
      exact parseGrpcIface_grpcIfaceRepOf i (h3 i hi)
    simp [map_eq_self_of_fixes _ _ hf, some_getD_of_isSome _ _ h1,
      some_getD_of_isSome _ _ h2]

/-- An interface state with every optional field present. -/
def fullExampleIface : WireGuardInterface :=
  { name := "wg0", display_name := some "w", subnet := some "10.0.0.0/24",
    endpoint := some "e", dns := some "1.1.1.1", port := some 51820,
    created_at := some 7, public_key := some "k" }

/-- A server state with every optional field present. -/
def fullExampleServer : Server :=
  { name := "s", address := "a", username := "u", display_name := some "d",
    created_at := some 5, interfaces := [fullExampleIface] }

/-- Witness for the amended C5: a fully populated server state parses to the
same record over both transports. -/
theorem parse_server_equiv_on_full_state_witness :
    WyronClient_parse_server (restRepOf fullExampleServer) =
      WyronGrpcClient_parse_server (grpcRepOf fullExampleServer) :=
  parse_server_equiv_on_full_state fullExampleServer (by decide)

/-- Claim C6: the worked example peer (server_id srv1, interface wg0,
allowed_address 10.0.0.2/32, private_key PK), bound to a resolver returning
a server carrying the interface (name wg0, endpoint vpn.example.com,
port 51820, dns 1.1.1.1, public_key PUB), renders exactly the two-section
profile with Address 10.0.0.2/32, DNS 1.1.1.1, PrivateKey PK,
AllowedIPs 0.0.0.0/0, Endpoint vpn.example.com:51820 and PublicKey PUB. -/
theorem generate_config_example_profile :
    PeerState.generate_config examplePeer =
      Except.ok ("[Interface]\n    Address = 10.0.0.2/32\n    DNS = 1.1.1.1\n    PrivateKey = PK\n\n[Peer]\n    AllowedIPs = 0.0.0.0/0\n    Endpoint = vpn.example.com:51820\n    PublicKey = PUB\n    ") := by
  rfl

/-- Claim C7: `generate_config` is deterministic. Two peers with identical
field values, bound to resolvers that return the identical server state for
the peer server id, render byte-identical outputs: the output depends only
on the peer fields and the resolved server state, with no other source of
variation. -/
theorem generate_config_deterministic (sid ifn addr : String)
    (pk : Option String) (f g : ServerResolver) (h : f sid = g sid) :
    PeerState.generate_config
        { server_id := sid, interface := ifn, allowed_address := addr,
          private_key := pk, _client := some f } =
      PeerState.generate_config
        { server_id := sid, interface := ifn, allowed_address := addr,
          private_key := pk, _client := some g } := by
  simp [PeerState.generate_config, PeerState._resolve_iface,
    PeerState._resolve_server, h]

/-- Witness for C7: two syntactically different resolvers agreeing on the
example server id yield the same rendered profile. -/
theorem generate_config_deterministic_witness :
    PeerState.generate_config
        { server_id := "srv1", interface := "wg0",
          allowed_address := "10.0.0.2/32", private_key := some "PK",
          _client := some exampleResolver } =
      PeerState.generate_config
        { server_id := "srv1", interface := "wg0",
          allowed_address := "10.0.0.2/32", private_key := some "PK",
          _client := some (fun s =>
            if s = "other" then { name := "x", address := "x", username := "x" }
            else exampleServer) } :=
  generate_config_deterministic "srv1" "wg0" "10.0.0.2/32" (some "PK")
    exampleResolver
    (fun s =>
      if s = "other" then { name := "x", address := "x", username := "x" }
      else exampleServer)
    (by decide)

/-- Counterexample for C8: a caller-supplied empty-string `status` filter is
omitted from the outgoing request (the code tests truthiness, not presence),
so an optional filter is not included exactly when supplied. -/
theorem list_users_empty_status_omitted :
    (WyronClient_list_users_params none (some "") none 50 0 "created_at"
        "desc").status = none ∧
    (some "" : Option String) ≠ none := by
  refine ⟨rfl, ?_⟩
  decide

/-- Claim C8 (amended): for `list_users` on either client the mandatory
parameters `limit`, `skip`, `sort`, `order` are always included unmodified;
`social_id` is included unmodified exactly when the caller supplied it
(`is not None`, including 0); `status` and `search` are included unmodified
exactly when supplied non-empty, and are omitted entirely (not sent as a
sentinel) when unset or supplied as the empty string. Both clients build
the same request. -/
theorem list_users_param_passthrough (si : Option Int) (st se : Option String)
    (l sk : Int) (so od : String) :
    WyronClient_list_users_params si st se l sk so od =
      WyronGrpcClient_list_users_request si st se l sk so od ∧
    (WyronClient_list_users_params si st se l sk so od).limit = l ∧
    (WyronClient_list_users_params si st se l sk so od).skip = sk ∧
    (WyronClient_list_users_params si st se l sk so od).sort = so ∧
    (WyronClient_list_users_params si st se l sk so od).order = od ∧
    (WyronClient_list_users_params si st se l sk so od).social_id = si ∧
    (∀ s : String, st = some s → s.isEmpty = false →
      (WyronClient_list_users_params si st se l sk so od).status = some s) ∧
    ((st = none ∨ st = some "") →
      (WyronClient_list_users_params si st se l sk so od).status = none) ∧
    (∀ s : String, se = some s → s.isEmpty = false →
      (WyronClient_list_users_params si st se l sk so od).search = some s) ∧
    ((se = none ∨ se = some "") →
      (WyronClient_list_users_params si st se l sk so od).search = none) := by
  refine ⟨rfl, rfl, rfl, rfl, rfl, rfl, ?_, ?_, ?_, ?_⟩
  · intro s hs he
    subst hs
    simp [WyronClient_list_users_params, pyFalsyOptStr, he]
  · intro h
    rcases h with h | h <;> subst h <;>
      simp [WyronClient_list_users_params, pyFalsyOptStr, String.isEmpty]
  · intro s hs he
    subst hs
    simp [WyronClient_list_users_params, pyFalsyOptStr, he]
  · intro h
    rcases h with h | h <;> subst h <;>
      simp [WyronClient_list_users_params, pyFalsyOptStr, String.isEmpty]

/-- Witness for the amended C8: a supplied non-empty status filter passes
through, an unset search filter is omitted. -/
theorem list_users_param_passthrough_witness :
    (WyronClient_list_users_params (some 7) (some "active") none 50 0
        "created_at" "desc").status = some "active" ∧
    (WyronClient_list_users_params (some 7) (some "active") none 50 0
        "created_at" "desc").search = none :=
  ⟨(list_users_param_passthrough (some 7) (some "active") none 50 0
      "created_at" "desc").2.2.2.2.2.2.1 "active" rfl rfl,
    (list_users_param_passthrough (some 7) (some "active") none 50 0
      "created_at" "desc").2.2.2.2.2.2.2.2.2 (Or.inl rfl)⟩

/-- Claim C9: `WyronClient._parse_server` maps a representation whose
interface list is absent or empty to a `Server` with the empty interface
list (and no error, the parse being total on well-formed objects); in
general it maps a representation with n interface entries to a server with
n interfaces, entry k parsing to interface k. -/
theorem parse_server_interfaces_shape (s : ServerJson) :
    ((s.interfaces = none ∨ s.interfaces = some []) →
      (WyronClient_parse_server s).interfaces = []) ∧
    (WyronClient_parse_server s).interfaces.length =
      (s.interfaces.getD []).length ∧
    (∀ k : Nat, (WyronClient_parse_server s).interfaces[k]? =
      ((s.interfaces.getD [])[k]?).map parseIfaceJson) := by
  refine ⟨?_, ?_, ?_⟩
  · intro h
    rcases h with h | h <;> simp [WyronClient_parse_server, h]
  · simp [WyronClient_parse_server]
  · intro k
    simp [WyronClient_parse_server]

/-- A server JSON object with no interfaces key. -/
def noIfacesJson : ServerJson :=
  { name := "s", address := "a", username := "u" }

/-- A server JSON object with one interface entry. -/
def oneIfaceJson : ServerJson :=
  { name := "s", address := "a", username := "u",
    interfaces := some [{ name := "wg0" }] }

/-- Witness for C9: a server object with no `interfaces` key parses to the
empty interface list, and a one-entry list parses entrywise. -/
theorem parse_server_interfaces_shape_witness :
    (WyronClient_parse_server noIfacesJson).interfaces = [] ∧
    (WyronClient_parse_server oneIfaceJson).interfaces[0]? =
      some (parseIfaceJson { name := "wg0" }) := by
  constructor
  · exact (parse_server_interfaces_shape noIfacesJson).1 (Or.inl rfl)
  · have h := (parse_server_interfaces_shape oneIfaceJson).2.2 0
    simpa [oneIfaceJson] using h

/-- Claim C10: `generate_config` never validates the resolved interface
port. For any peer passing all four documented checks whose matched
interface has `port = None`, rendering succeeds, and the rendered text is
the template whose Endpoint line reads `Endpoint = <endpoint>:None`
(`renderConfig` places its fifth argument, here the Python rendering
`None` of the absent port, after the colon of the Endpoint line). -/
theorem generate_config_port_none (p : PeerState) (c : ServerResolver)
    (i : WireGuardInterface)
    (h1 : pyFalsyOptStr p.private_key = false)
    (h2 : p._client = some c)
    (h3 : findIface (c p.server_id) p.interface = some i)
    (h4 : pyFalsyOptStr i.endpoint = false)
    (h5 : pyFalsyOptStr i.public_key = false)
    (h6 : i.port = none) :
    p.generate_config =
      .ok (renderConfig p.allowed_address (pyStrOfOptStr i.dns)
        (pyStrOfOptStr p.private_key) (pyStrOfOptStr i.endpoint) "None"
        (pyStrOfOptStr i.public_key)) := by
  simp [PeerState.generate_config, PeerState._resolve_iface,
    PeerState._resolve_server, h1, h2, h3, h4, h5, h6, pyStrOfOptInt]

/-- The example interface without a port. -/
def portlessIface : WireGuardInterface :=
  { name := "wg0", endpoint := some "vpn.example.com", dns := some "1.1.1.1",
    public_key := some "PUB" }

/-- The example server whose interface has no port. -/
def portlessServer : Server :=
  { name := "srv1", address := "1.2.3.4", username := "root",
    interfaces := [portlessIface] }

/-- A resolver returning the portless example server for every id. -/
def portlessResolver : ServerResolver := fun _ => portlessServer

/-- The example peer bound to the portless resolver. -/
def portlessPeer : PeerState :=
  { server_id := "srv1", interface := "wg0", allowed_address := "10.0.0.2/32",
    private_key := some "PK", _client := some portlessResolver }

/-- Witness for C10: the example peer whose interface has no port renders
successfully with `Endpoint = vpn.example.com:None`. -/
theorem generate_config_port_none_witness :
    PeerState.generate_config portlessPeer =
      Except.ok (renderConfig "10.0.0.2/32" (pyStrOfOptStr (some "1.1.1.1"))
        (pyStrOfOptStr (some "PK")) (pyStrOfOptStr (some "vpn.example.com"))
        "None" (pyStrOfOptStr (some "PUB"))) := by
  have h := generate_config_port_none portlessPeer portlessResolver
    portlessIface rfl rfl (by decide) rfl rfl rfl
  exact h
